import Mathlib

/-!
Verification of the telemetry extraction and normalization pipeline of the
arista-srt switch report tool (single Python source file `arista-srt.py`).

The Python functions `get_interface_counters`, `get_environment_info`,
`sort_eth_interfaces`, `prepare_interface_data`, `generate_html_report` and
`main` are shallowly embedded below.  JSON mappings become association lists
(dicts with insertion order and key-overwrite semantics are modelled by
`dictInsert`), JSON numbers become `Rat` (rates) and `Int` (error counters),
optional JSON fields become `Option`, and Python exceptions become
`Option`/`Except` results.  The anchored regular-expression matches performed
with `re.match` are embedded as deterministic maximal-munch scanners, which is
exact for the patterns in the source because every adjacent pair of
subpatterns there draws from disjoint character classes (so the regex engine
never backtracks into a captured group).
-/

/-- Python whitespace for `str.strip` / `\s` (ASCII range, which is what the
device output uses). -/
def pyIsSpace (c : Char) : Bool :=
  c = ' ' || c = '\t' || c = '\n' || c = '\r' || c = '\x0b' || c = '\x0c'

/-- Python `\w` word characters (ASCII range). -/
def isWordChar (c : Char) : Bool :=
  c.isAlphanum || c = '_'

/-- Python `str.strip()`. -/
def pyStrip (l : List Char) : List Char :=
  ((l.dropWhile pyIsSpace).reverse.dropWhile pyIsSpace).reverse

/-- Worker for `pySplitlines`; `cur` is the current line, reversed. -/
def splitlinesGo (cur : List Char) : List Char → List (List Char)
  | [] => if cur.isEmpty then [] else [cur.reverse]
  | '\r' :: '\n' :: rest => cur.reverse :: splitlinesGo [] rest
  | '\r' :: rest => cur.reverse :: splitlinesGo [] rest
  | '\n' :: rest => cur.reverse :: splitlinesGo [] rest
  | c :: rest => splitlinesGo (c :: cur) rest

/-- Python `str.splitlines()` for the line terminators `\n`, `\r`, `\r\n`. -/
def pySplitlines (l : List Char) : List (List Char) :=
  splitlinesGo [] l

/-- Python `str.replace("Ethernet", "Eth")`: replace every non-overlapping
occurrence, scanning left to right. -/
def replaceEthGo : List Char → List Char
  | [] => []
  | 'E' :: 't' :: 'h' :: 'e' :: 'r' :: 'n' :: 'e' :: 't' :: rest =>
      'E' :: 't' :: 'h' :: replaceEthGo rest
  | c :: cs => c :: replaceEthGo cs

/-- `port.replace("Ethernet", "Eth")` on strings (the canonical port name). -/
def canonicalName (s : String) : String :=
  String.mk (replaceEthGo s.data)

/-- Parse a run of decimal digits as a number (Python `int(...)`). -/
def parseDigits (l : List Char) : Nat :=
  l.foldl (fun a c => 10 * a + (c.toNat - 48)) 0

/-- Worker for `digitRuns`; `cur` is the digit run in progress, reversed. -/
def digitRunsGo (cur : List Char) : List Char → List (List Char)
  | [] => if cur.isEmpty then [] else [cur.reverse]
  | c :: cs =>
    if c.isDigit then digitRunsGo (c :: cur) cs
    else if cur.isEmpty then digitRunsGo [] cs
    else cur.reverse :: digitRunsGo [] cs

/-- Python `[int(p) for p in re.findall(r'\d+', name)]`: every maximal run of
decimal digits, each parsed as an integer. -/
def digitRuns (l : List Char) : List Nat :=
  (digitRunsGo [] l).map parseDigits

/-- `interface_sort_key` from the source: the digit-run tuple of a name. -/
def interface_sort_key (name : String) : List Nat :=
  digitRuns name.data

/-- Python's `<=` on lists of integers: lexicographic, a strict prefix is
smaller. -/
def natListLe : List Nat → List Nat → Bool
  | [], _ => true
  | _ :: _, [] => false
  | a :: as, b :: bs => if a < b then true else if b < a then false else natListLe as bs

/-- One entry of the `show interfaces counters rates` JSON: the three fields
the source reads, each possibly absent. -/
structure RateData where
  description : Option String
  outBpsRate : Option Rat
  inBpsRate : Option Rat
deriving DecidableEq, Repr

/-- One entry of the `show interfaces counters errors` JSON: the seven fields
the source reads, each possibly absent. -/
structure ErrorData where
  inErrors : Option Int
  outErrors : Option Int
  frameTooLongs : Option Int
  frameTooShorts : Option Int
  fcsErrors : Option Int
  alignmentErrors : Option Int
  symbolErrors : Option Int
deriving DecidableEq, Repr

/-- `interfaces_errors.get(port, {})` when the port is absent: the empty dict,
every field lookup falls back to its default. -/
def defaultErrorData : ErrorData :=
  ⟨none, none, none, none, none, none, none⟩

/-- The combined per-port record built by `get_interface_counters`. -/
structure PortCounters where
  description : String
  outBpsRate : Rat
  inBpsRate : Rat
  totalErrors : Int
  inErrors : Int
  outErrors : Int
  frameTooLongs : Int
  frameTooShorts : Int
  fcsErrors : Int
  alignmentErrors : Int
  symbolErrors : Int
deriving DecidableEq, Repr

/-- The body of the loop in `get_interface_counters` (lines 139-160): build
one combined record from a rate entry and the (possibly defaulted) error
entry, recomputing `totalErrors` as the sum of the seven error fields. -/
def mkPortCounters (rd : RateData) (ed : ErrorData) : PortCounters :=
  let total := ed.inErrors.getD 0 + ed.outErrors.getD 0 + ed.frameTooLongs.getD 0 +
    ed.frameTooShorts.getD 0 + ed.fcsErrors.getD 0 + ed.alignmentErrors.getD 0 +
    ed.symbolErrors.getD 0
  { description := rd.description.getD ""
    outBpsRate := rd.outBpsRate.getD 0
    inBpsRate := rd.inBpsRate.getD 0
    totalErrors := total
    inErrors := ed.inErrors.getD 0
    outErrors := ed.outErrors.getD 0
    frameTooLongs := ed.frameTooLongs.getD 0
    frameTooShorts := ed.frameTooShorts.getD 0
    fcsErrors := ed.fcsErrors.getD 0
    alignmentErrors := ed.alignmentErrors.getD 0
    symbolErrors := ed.symbolErrors.getD 0 }

/-- Python dict assignment `d[k] = v`: overwrite in place if the key exists,
else append at the end (insertion order). -/
def dictInsert (d : List (String × α)) (k : String) (v : α) : List (String × α) :=
  if d.any (fun p => p.1 = k) then
    d.map (fun p => if p.1 = k then (k, v) else p)
  else d ++ [(k, v)]

/-- One iteration of the loop in `get_interface_counters`: the canonical key
`port.replace("Ethernet", "Eth")` and the combined record, where the error
entry is `interfaces_errors.get(port, {})`. -/
def normalizeEntry (errors : List (String × ErrorData)) (p : String × RateData) :
    String × PortCounters :=
  (canonicalName p.1, mkPortCounters p.2 ((List.lookup p.1 errors).getD defaultErrorData))

/-- `get_interface_counters` (lines 135-162), applied to the two decoded JSON
mappings: iterate the rate mapping in order, building `combined_data`. -/
def get_interface_counters (rates : List (String × RateData))
    (errors : List (String × ErrorData)) : List (String × PortCounters) :=
  rates.foldl (fun acc p => dictInsert acc (normalizeEntry errors p).1 (normalizeEntry errors p).2) []

/-- The key comparison used by `sorted(..., key=lambda x: interface_sort_key(x[0]))`:
Python's total `<=` on the integer key tuples. -/
def interfaceLE (a b : String × PortCounters) : Prop :=
  natListLe (interface_sort_key a.1) (interface_sort_key b.1) = true

instance : DecidableRel interfaceLE := fun a b => by
  unfold interfaceLE; infer_instance

/-- The dict comprehension filter in `sort_eth_interfaces`:
`port.startswith("Eth")`. -/
def ethFilter (p : String × PortCounters) : Bool :=
  "Eth".data.isPrefixOf p.1.data

/-- `sort_eth_interfaces` (lines 285-297): keep the `Eth`-prefixed ports and
stable-sort their items by the digit-run key tuple.  Python's `sorted` is a
stable sort by the key; it is modelled by `List.insertionSort` on the total
preorder `interfaceLE`, the canonical stable sort. -/
def sort_eth_interfaces (interfaces : List (String × PortCounters)) :
    List (String × PortCounters) :=
  List.insertionSort interfaceLE (interfaces.filter ethFilter)

/-- `[int(re.findall(r'\d+', port)[0]) for port in labels]` (line 305): the
first digit run of every label; `none` models the `IndexError` raised when a
label contains no digit. -/
def firstNums : List String → Option (List Nat)
  | [] => some []
  | p :: ps =>
    match (digitRuns p.data).head?, firstNums ps with
    | some n, some ns => some (n :: ns)
    | _, _ => none

/-- The parallel series built by `prepare_interface_data` (lines 303-342). -/
structure InterfaceSeries where
  labels : List String
  port_numbers : List Nat
  in_bps_data : List Rat
  out_bps_data : List Rat
  in_errors_data : List Int
  out_errors_data : List Int
  frame_too_longs_data : List Int
  frame_too_shorts_data : List Int
  fcs_errors_data : List Int
  alignment_errors_data : List Int
  symbol_errors_data : List Int
  total_errors_data : List Int
deriving DecidableEq, Repr

/-- `prepare_interface_data` (lines 303-342): project the sorted items into
index-aligned parallel lists.  The result is `none` exactly when the
`port_numbers` comprehension raises `IndexError` on a digitless label; rates
are scaled by 1,000,000 with Python truthiness (`x / 1_000_000 if x else 0`). -/
def prepare_interface_data (s : List (String × PortCounters)) : Option InterfaceSeries :=
  let labels := s.map Prod.fst
  match firstNums labels with
  | none => none
  | some pns => some
    { labels := labels
      port_numbers := pns
      in_bps_data := s.map (fun x => if x.2.inBpsRate ≠ 0 then x.2.inBpsRate / 1000000 else 0)
      out_bps_data := s.map (fun x => if x.2.outBpsRate ≠ 0 then x.2.outBpsRate / 1000000 else 0)
      in_errors_data := s.map (fun x => x.2.inErrors)
      out_errors_data := s.map (fun x => x.2.outErrors)
      frame_too_longs_data := s.map (fun x => x.2.frameTooLongs)
      frame_too_shorts_data := s.map (fun x => x.2.frameTooShorts)
      fcs_errors_data := s.map (fun x => x.2.fcsErrors)
      alignment_errors_data := s.map (fun x => x.2.alignmentErrors)
      symbol_errors_data := s.map (fun x => x.2.symbolErrors)
      total_errors_data := s.map (fun x => x.2.totalErrors) }

/-- Consume an exact literal prefix of the line (the literal part of an
anchored `re.match` pattern); return the remainder on success. -/
def dropLit? : List Char → List Char → Option (List Char)
  | [], l => some l
  | _ :: _, [] => none
  | p :: ps, c :: cs => if c = p then dropLit? ps cs else none

/-- Consume a nonempty maximal run of characters of a class (`\w+`, `\d+`,
`\S+`, `\s+`, `[\w-]+`, `[\d\.]+`): the captured run and the remainder. -/
def takeClass (p : Char → Bool) (l : List Char) : Option (List Char × List Char) :=
  let t := l.takeWhile p
  if t.isEmpty then none else some (t, l.drop t.length)

/-- Require one literal character (`%`, `C`, `W`, `A` in the patterns). -/
def expectChar (c : Char) : List Char → Option (List Char)
  | [] => none
  | x :: xs => if x = c then some xs else none

/-- `re.match(r"System cooling status is:\s*(\w+)", line)`: the captured
status word, if the line matches. -/
def coolingMatch (line : List Char) : Option (List Char) := do
  let r ← dropLit? "System cooling status is:".data line
  let (g, _) ← takeClass isWordChar (r.dropWhile pyIsSpace)
  pure g

/-- `re.match(r"Ambient temperature:\s*(\d+)C", line)`: the captured digits,
if the line matches (the digits must be followed by a literal `C`). -/
def tempMatch (line : List Char) : Option (List Char) := do
  let r ← dropLit? "Ambient temperature:".data line
  let (g, r2) ← takeClass Char.isDigit (r.dropWhile pyIsSpace)
  let _ ← expectChar 'C' r2
  pure g

/-- `re.match(r"Airflow:\s*(.+)", line)`: the captured remainder.  When the
remainder is nonempty but all whitespace, `\s*` backtracks by one character
and `.+` captures the final character. -/
def airflowMatch (line : List Char) : Option (List Char) :=
  match dropLit? "Airflow:".data line with
  | none => none
  | some r =>
    let r2 := r.dropWhile pyIsSpace
    if r2.isEmpty then
      if r.isEmpty then none else some [r.getLastD ' ']
    else some r2

/-- `"sub" in line` (Python substring containment). -/
def containsSub (pat : List Char) : List Char → Bool
  | [] => pat.isEmpty
  | c :: cs => pat.isPrefixOf (c :: cs) || containsSub pat cs

/-- `re.match(r"[-\s]+", line)`: at least one leading dash/whitespace
character.  Note this only constrains the first character of the line. -/
def sepMatch : List Char → Bool
  | [] => false
  | c :: _ => c = '-' || pyIsSpace c

/-- `re.match(r"(\S+)\s+(\w+)\s+(\d+)%\s+(\d+)%", line)`: the four captured
groups of a fan-status row. -/
def fanRowMatch (line : List Char) : Option (List Char × List Char × List Char × List Char) := do
  let (g1, r1) ← takeClass (fun c => !pyIsSpace c) line
  let (_, r2) ← takeClass pyIsSpace r1
  let (g2, r3) ← takeClass isWordChar r2
  let (_, r4) ← takeClass pyIsSpace r3
  let (g3, r5) ← takeClass Char.isDigit r4
  let r6 ← expectChar '%' r5
  let (_, r7) ← takeClass pyIsSpace r6
  let (g4, r8) ← takeClass Char.isDigit r7
  let _ ← expectChar '%' r8
  pure (g1, g2, g3, g4)

/-- The fan-status display string built at lines 245-247. -/
def fanRowRender (g : List Char × List Char × List Char × List Char) : String :=
  "<strong>" ++ String.mk (replaceEthGo g.1) ++ " Status:</strong> " ++ String.mk g.2.1 ++
    ", <strong>Configured Speed:</strong> " ++ String.mk g.2.2.1 ++
    "%, <strong>Actual Speed:</strong> " ++ String.mk g.2.2.2 ++ "%"

/-- The seven captured groups of the power-supply row pattern. -/
structure PowerRowGroups where
  label : List Char
  model : List Char
  capacity : List Char
  inputCurrent : List Char
  outputCurrent : List Char
  power : List Char
  status : List Char
deriving DecidableEq, Repr

/-- `re.match(r"(\S+)\s+([\w-]+)\s+(\d+W)\s+([\d\.]+A)\s+([\d\.]+A)\s+([\d\.]+W)\s+(\w+)", line)`:
the seven captured groups of a power-supply row (groups 3-6 include their
trailing unit letter, as in the pattern). -/
def powerRowMatch (line : List Char) : Option PowerRowGroups :=
  match takeClass (fun c => !pyIsSpace c) line with
  | none => none
  | some (g1, r1) =>
  match takeClass pyIsSpace r1 with
  | none => none
  | some (_, r2) =>
  match takeClass (fun c => isWordChar c || c = '-') r2 with
  | none => none
  | some (g2, r3) =>
  match takeClass pyIsSpace r3 with
  | none => none
  | some (_, r4) =>
  match takeClass Char.isDigit r4 with
  | none => none
  | some (d3, r5) =>
  match expectChar 'W' r5 with
  | none => none
  | some r6 =>
  match takeClass pyIsSpace r6 with
  | none => none
  | some (_, r7) =>
  match takeClass (fun c => c.isDigit || c = '.') r7 with
  | none => none
  | some (d4, r8) =>
  match expectChar 'A' r8 with
  | none => none
  | some r9 =>
  match takeClass pyIsSpace r9 with
  | none => none
  | some (_, r10) =>
  match takeClass (fun c => c.isDigit || c = '.') r10 with
  | none => none
  | some (d5, r11) =>
  match expectChar 'A' r11 with
  | none => none
  | some r12 =>
  match takeClass pyIsSpace r12 with
  | none => none
  | some (_, r13) =>
  match takeClass (fun c => c.isDigit || c = '.') r13 with
  | none => none
  | some (d6, r14) =>
  match expectChar 'W' r14 with
  | none => none
  | some r15 =>
  match takeClass pyIsSpace r15 with
  | none => none
  | some (_, r16) =>
  match takeClass isWordChar r16 with
  | none => none
  | some (g7, _) => some ⟨g1, g2, d3 ++ ['W'], d4 ++ ['A'], d5 ++ ['A'], d6 ++ ['W'], g7⟩

/-- The power-supply display string built at lines 261-263. -/
def powerRowRender (g : PowerRowGroups) : String :=
  "<strong>" ++ String.mk (replaceEthGo g.label) ++ " Status:</strong> " ++ String.mk g.status ++
    ", <strong>Model:</strong> " ++ String.mk g.model ++
    ", <strong>Capacity:</strong> " ++ String.mk g.capacity ++
    ", <strong>Input Current:</strong> " ++ String.mk g.inputCurrent ++
    ", <strong>Output Current:</strong> " ++ String.mk g.outputCurrent ++
    ", <strong>Power:</strong> " ++ String.mk g.power

/-- The loop state of `get_environment_info`: the accumulated fields and the
two table-mode flags. -/
structure EnvState where
  cooling : String
  temp : String
  airflow : String
  fans : List String
  power : List String
  parsingFan : Bool
  parsingPower : Bool
deriving DecidableEq, Repr

/-- The initial loop state (lines 187-196). -/
def initEnvState : EnvState :=
  ⟨"N/A", "N/A", "N/A", [], [], false, false⟩

/-- One iteration of the line loop of `get_environment_info` (lines 198-264):
strip the line, then try the matchers in the source's fixed priority order;
the first match wins, anything else leaves the state unchanged. -/
def envStep (st : EnvState) (raw : List Char) : EnvState :=
  let line := pyStrip raw
  if line.isEmpty then st
  else
    match coolingMatch line with
    | some g => { st with cooling := String.mk g }
    | none =>
      match tempMatch line with
      | some g => { st with temp := String.mk (g ++ ['C']) }
      | none =>
        match airflowMatch line with
        | some g => { st with airflow := String.mk g }
        | none =>
          if "Fan".data.isPrefixOf line && containsSub "Status".data line then
            { st with parsingFan := true, parsingPower := false }
          else if "Power".data.isPrefixOf line && containsSub "Supply".data line then
            { st with parsingPower := true, parsingFan := false }
          else if sepMatch line then st
          else if st.parsingFan then
            match fanRowMatch line with
            | some g => { st with fans := st.fans ++ [fanRowRender g] }
            | none => st
          else if st.parsingPower then
            match powerRowMatch line with
            | some g => { st with power := st.power ++ [powerRowRender g] }
            | none => st
          else st

/-- The `EnvironmentSnapshot` produced by `get_environment_info`. -/
structure EnvironmentSnapshot where
  coolingStatus : String
  ambientTemperature : String
  fanStatus : List String
  powerSupplyStatus : List String
deriving DecidableEq, Repr

/-- The all-sentinel snapshot returned at lines 175-180. -/
def sentinelSnapshot : EnvironmentSnapshot :=
  ⟨"N/A", "N/A", ["N/A"], ["N/A"]⟩

/-- `get_environment_info` (lines 168-279) applied to the decoded `messages`
field of the command response (`none` models an absent field, defaulted to
`[]` by `env_info.get("messages", [])`).  An empty `messages` short-circuits
to the all-sentinel snapshot; otherwise the first message is split into lines
and folded through `envStep`, and an empty fan/power list is replaced by the
one-element sentinel list (lines 266-270). -/
def get_environment_info (messagesField : Option (List String)) : EnvironmentSnapshot :=
  match messagesField.getD [] with
  | [] => sentinelSnapshot
  | m :: _ =>
    let st := (pySplitlines m.data).foldl envStep initEnvState
    { coolingStatus := st.cooling
      ambientTemperature := st.temp
      fanStatus := if st.fans.isEmpty then ["N/A"] else st.fans
      powerSupplyStatus := if st.power.isEmpty then ["N/A"] else st.power }

/-- `generate_html_report` (lines 366-758) up to the data it writes: the three
fetches (each an `Except` carrying the single transport/malformed-response
error kind raised by `execute_command`) are sequenced exactly as in the
source, with no error handling; the HTML templating is abstracted to the
tuple of pure pipeline outputs substituted into it.  The `none` result of
`prepare_interface_data` is the `IndexError` the source would raise there. -/
def generate_html_report (sw : Except String α)
    (ratesResp : Except String (List (String × RateData)))
    (errsResp : Except String (List (String × ErrorData)))
    (envResp : Except String (Option (List String))) :
    Except String (α × InterfaceSeries × EnvironmentSnapshot) := do
  let s ← sw
  let r ← ratesResp
  let e ← errsResp
  let v ← envResp
  let env := get_environment_info v
  match prepare_interface_data (sort_eth_interfaces (get_interface_counters r e)) with
  | none => Except.error "list index out of range"
  | some series => pure (s, series, env)

/-- The observable outcome of one `main()` run: the line printed, and the
report file contents if one was written. -/
structure RunOutcome (α : Type) where
  printed : String
  reportFile : Option α
deriving DecidableEq, Repr

/-- `main` (lines 764-769): run the report generation; on success print the
success line (the file has been written), on any raised error print the error
message and write nothing. -/
def mainRun (sw : Except String α)
    (ratesResp : Except String (List (String × RateData)))
    (errsResp : Except String (List (String × ErrorData)))
    (envResp : Except String (Option (List String))) :
    RunOutcome (α × InterfaceSeries × EnvironmentSnapshot) :=
  match generate_html_report sw ratesResp errsResp envResp with
  | Except.ok rep => ⟨"Report generated successfully", some rep⟩
  | Except.error e => ⟨"Error generating report: " ++ e, none⟩

/-- A placeholder combined record used in concrete sorting examples. -/
def pc0 : PortCounters :=
  ⟨"", 0, 0, 0, 0, 0, 0, 0, 0, 0, 0⟩

/-- Ports with digit-tuples (2,1), (1,10), (1,2), (1,1), deliberately out of
order. -/
def c2input : List (String × PortCounters) :=
  [("Eth2/1", pc0), ("Eth1/10", pc0), ("Eth1/2", pc0), ("Eth1/1", pc0)]

/-- The digit-tuple order (1,1), (1,2), (1,10), (2,1). -/
def c2sorted : List (String × PortCounters) :=
  [("Eth1/1", pc0), ("Eth1/2", pc0), ("Eth1/10", pc0), ("Eth2/1", pc0)]

/-- The scenario-A rate entry for `Ethernet1`. -/
def rateA : RateData :=
  ⟨some "uplink", some 1000000, some 2000000⟩

/-- The scenario-A rate mapping `{"Ethernet1": {...}}`. -/
def ratesA : List (String × RateData) :=
  [("Ethernet1", rateA)]

/-- The scenario-A normalized record keyed `"Eth1"`. -/
def pcA : PortCounters :=
  ⟨"uplink", 1000000, 2000000, 0, 0, 0, 0, 0, 0, 0, 0⟩

/-- The scenario-A projected series: rates scaled to 2.0 / 1.0 Mbps, every
error column 0. -/
def seriesA : InterfaceSeries :=
  ⟨["Eth1"], [1], [2], [1], [0], [0], [0], [0], [0], [0], [0], [0]⟩

/-- A rate entry whose rates are 0 (Python-falsy). -/
def rateZ : RateData :=
  ⟨none, some 0, some 0⟩

/-- A rate mapping with a zero-rate port. -/
def ratesZ : List (String × RateData) :=
  [("Ethernet2", rateZ)]

/-- The projected series of the zero-rate port: the scaled rate is present
and exactly 0. -/
def seriesZ : InterfaceSeries :=
  ⟨["Eth2"], [2], [0], [0], [0], [0], [0], [0], [0], [0], [0], [0]⟩

/-- A rate mapping whose only port, `"Ethernet"`, canonicalizes to the
digitless name `"Eth"`. -/
def ratesDigitless : List (String × RateData) :=
  [("Ethernet", rateA)]

/-- A well-formed fan row prefixed with a dash: the fan-row pattern matches
it, but the separator check skips it first. -/
def dashFanLine : String :=
  "-Fan1 Ok 50% 50%"

/-- The scenario-B environment text. -/
def coolingLine : String :=
  "System cooling status is: OK"

/-- Whether a line can change the parser state in `envStep`: it is nonempty
after stripping and one of the source's matchers applies (the final two only
in the corresponding table mode).  Everything else is skipped. -/
def recognizedEnvLine (st : EnvState) (raw : List Char) : Prop :=
  (pyStrip raw).isEmpty = false ∧
    ((coolingMatch (pyStrip raw)).isSome = true ∨
     (tempMatch (pyStrip raw)).isSome = true ∨
     (airflowMatch (pyStrip raw)).isSome = true ∨
     ("Fan".data.isPrefixOf (pyStrip raw) && containsSub "Status".data (pyStrip raw)) = true ∨
     ("Power".data.isPrefixOf (pyStrip raw) && containsSub "Supply".data (pyStrip raw)) = true ∨
     (st.parsingFan = true ∧ (fanRowMatch (pyStrip raw)).isSome = true) ∨
     (st.parsingPower = true ∧ (powerRowMatch (pyStrip raw)).isSome = true))

lemma mkPortCounters_totalErrors (rd : RateData) (ed : ErrorData) :
    (mkPortCounters rd ed).totalErrors =
      (mkPortCounters rd ed).inErrors + (mkPortCounters rd ed).outErrors +
      (mkPortCounters rd ed).frameTooLongs + (mkPortCounters rd ed).frameTooShorts +
      (mkPortCounters rd ed).fcsErrors + (mkPortCounters rd ed).alignmentErrors +
      (mkPortCounters rd ed).symbolErrors := rfl

lemma mem_dictInsert {α : Type} {d : List (String × α)} {k : String} {v : α} {e : String × α}
    (h : e ∈ dictInsert d k v) : e ∈ d ∨ e = (k, v) := by
  unfold dictInsert at h
  split at h
  · obtain ⟨x, hx, hfx⟩ := List.mem_map.mp h
    by_cases hk : x.1 = k
    · right
      rw [← hfx]
      simp [hk]
    · left
      rw [← hfx]
      simpa [hk] using hx
  · rcases List.mem_append.mp h with h1 | h1
    · exact Or.inl h1
    · right
      simpa using h1

lemma keys_dictInsert {α : Type} {d : List (String × α)} {k : String} {v : α} {k' : String} :
    k' ∈ (dictInsert d k v).map Prod.fst ↔ k' ∈ d.map Prod.fst ∨ k' = k := by
  unfold dictInsert
  split
  case isTrue hany =>
    have hk : k ∈ d.map Prod.fst := by
      obtain ⟨x, hx, hxk⟩ := List.any_eq_true.mp hany
      have : x.1 = k := by simpa using hxk
      exact this ▸ List.mem_map.mpr ⟨x, hx, rfl⟩
    have hmap : ((d.map fun p => if p.1 = k then (k, v) else p).map Prod.fst) = d.map Prod.fst := by
      rw [List.map_map]
      refine List.map_congr_left ?_
      intro x _
      by_cases hxk : x.1 = k <;> simp [hxk]
    rw [hmap]
    constructor
    · exact Or.inl
    · rintro (h | rfl)
      · exact h
      · exact hk
  case isFalse =>
    simp [or_comm]

lemma mem_interfaceFold (errors : List (String × ErrorData)) :
    ∀ (rates : List (String × RateData)) (acc : List (String × PortCounters))
      (e : String × PortCounters),
      e ∈ rates.foldl
        (fun acc p => dictInsert acc (normalizeEntry errors p).1 (normalizeEntry errors p).2) acc →
      e ∈ acc ∨ ∃ p, p ∈ rates ∧ e = normalizeEntry errors p
  | [], acc, e, h => Or.inl (by simpa using h)
  | q :: qs, acc, e, h => by
    have ih := mem_interfaceFold errors qs
      (dictInsert acc (normalizeEntry errors q).1 (normalizeEntry errors q).2) e
      (by simpa using h)
    rcases ih with hmem | ⟨p, hp, he⟩
    · rcases mem_dictInsert hmem with h1 | h1
      · exact Or.inl h1
      · exact Or.inr ⟨q, by simp, by rw [h1]⟩
    · exact Or.inr ⟨p, by simp [hp], he⟩

lemma keys_interfaceFold (errors : List (String × ErrorData)) :
    ∀ (rates : List (String × RateData)) (acc : List (String × PortCounters)) (k : String),
      k ∈ (rates.foldl
        (fun acc p => dictInsert acc (normalizeEntry errors p).1 (normalizeEntry errors p).2)
          acc).map Prod.fst ↔
      k ∈ acc.map Prod.fst ∨ k ∈ rates.map (fun p => canonicalName p.1)
  | [], acc, k => by simp
  | q :: qs, acc, k => by
    have ih := keys_interfaceFold errors qs
      (dictInsert acc (normalizeEntry errors q).1 (normalizeEntry errors q).2) k
    simp only [List.foldl_cons] at ih ⊢
    rw [ih, keys_dictInsert]
    have : (normalizeEntry errors q).1 = canonicalName q.1 := rfl
    rw [this]
    simp only [List.map_cons, List.mem_cons]
    tauto

lemma mem_get_interface_counters {rates : List (String × RateData)}
    {errors : List (String × ErrorData)} {e : String × PortCounters}
    (h : e ∈ get_interface_counters rates errors) :
    ∃ p, p ∈ rates ∧ e = normalizeEntry errors p := by
  rcases mem_interfaceFold errors rates [] e h with h1 | h1
  · simp at h1
  · exact h1

lemma natListLe_refl : ∀ a : List Nat, natListLe a a = true
  | [] => rfl
  | x :: xs => by simp [natListLe, natListLe_refl xs]

lemma natListLe_total : ∀ a b : List Nat, natListLe a b = true ∨ natListLe b a = true
  | [], _ => Or.inl rfl
  | _ :: _, [] => Or.inr rfl
  | a :: as, b :: bs => by
    rcases Nat.lt_trichotomy a b with h | h | h
    · left
      simp [natListLe, h]
    · subst h
      rcases natListLe_total as bs with h1 | h1
      · left
        simp [natListLe, h1]
      · right
        simp [natListLe, h1]
    · right
      simp [natListLe, h]

lemma natListLe_trans : ∀ a b c : List Nat,
    natListLe a b = true → natListLe b c = true → natListLe a c = true
  | [], _, _, _, _ => rfl
  | a :: as, [], c, h, _ => by simp [natListLe] at h
  | a :: as, b :: bs, [], _, h2 => by simp [natListLe] at h2
  | a :: as, b :: bs, c :: cs, h1, h2 => by
    simp only [natListLe] at h1 h2 ⊢
    by_cases hab : a < b
    · by_cases hbc : b < c
      · simp [Nat.lt_trans hab hbc]
      · by_cases hcb : c < b
        · rw [if_neg hbc, if_pos hcb] at h2
          exact absurd h2 (by decide)
        · have hbceq : b = c := Nat.le_antisymm (Nat.le_of_not_lt hcb) (Nat.le_of_not_lt hbc)
          subst hbceq
          simp [hab]
    · by_cases hba : b < a
      · rw [if_neg hab, if_pos hba] at h1
        exact absurd h1 (by decide)
      · have habeq : a = b := Nat.le_antisymm (Nat.le_of_not_lt hba) (Nat.le_of_not_lt hab)
        subst habeq
        rw [if_neg hab, if_neg hba] at h1
        by_cases hac : a < c
        · simp [hac]
        · by_cases hca : c < a
          · rw [if_neg hac, if_pos hca] at h2
            exact absurd h2 (by decide)
          · have haceq : a = c := Nat.le_antisymm (Nat.le_of_not_lt hca) (Nat.le_of_not_lt hac)
            subst haceq
            rw [if_neg hac, if_neg hca] at h2
            rw [if_neg hac, if_neg hca]
            exact natListLe_trans as bs cs h1 h2

instance : IsTotal (String × PortCounters) interfaceLE :=
  ⟨fun a b => natListLe_total (interface_sort_key a.1) (interface_sort_key b.1)⟩

instance : IsTrans (String × PortCounters) interfaceLE :=
  ⟨fun _ _ _ h1 h2 => natListLe_trans _ _ _ h1 h2⟩

lemma firstNums_spec : ∀ (ls : List String) (ns : List Nat), firstNums ls = some ns →
    ns.length = ls.length ∧
      ∀ (i : Nat) (h1 : i < ls.length) (h2 : i < ns.length),
        (digitRuns (ls.get ⟨i, h1⟩).data).head? = some (ns.get ⟨i, h2⟩)
  | [], ns, h => by
    simp only [firstNums, Option.some.injEq] at h
    subst h
    exact ⟨rfl, fun i h1 _ => absurd h1 (by simp)⟩
  | p :: ps, ns, h => by
    simp only [firstNums] at h
    cases hh : (digitRuns p.data).head? with
    | none => rw [hh] at h; exact absurd h (by simp)
    | some n =>
      rw [hh] at h
      cases ht : firstNums ps with
      | none => rw [ht] at h; exact absurd h (by simp)
      | some ms =>
        rw [ht] at h
        simp only [Option.some.injEq] at h
        subst h
        obtain ⟨hlen, hget⟩ := firstNums_spec ps ms ht
        refine ⟨by simp [hlen], ?_⟩
        intro i h1 h2
        cases i with
        | zero => simpa using hh
        | succ j =>
          have h1' : j < ps.length := by simpa using h1
          have h2' : j < ms.length := by simpa using h2
          simpa using hget j h1' h2'

lemma firstNums_none_of_mem : ∀ (ls : List String) (p : String),
    p ∈ ls → digitRuns p.data = [] → firstNums ls = none
  | [], p, h, _ => absurd h (by simp)
  | q :: qs, p, h, hd => by
    rcases List.mem_cons.mp h with rfl | hm
    · simp [firstNums, hd]
    · rw [firstNums, firstNums_none_of_mem qs p hm hd]
      cases (digitRuns q.data).head? <;> rfl

lemma dropLit?_head_ne {p : Char} {ps : List Char} {c : Char} {cs : List Char} (h : ¬ c = p) :
    dropLit? (p :: ps) (c :: cs) = none := by
  simp [dropLit?, h]

lemma coolingMatch_dash (cs : List Char) : coolingMatch ('-' :: cs) = none := by
  unfold coolingMatch
  rw [show "System cooling status is:".data = 'S' :: "ystem cooling status is:".data from rfl,
    dropLit?_head_ne (by decide)]
  rfl

lemma tempMatch_dash (cs : List Char) : tempMatch ('-' :: cs) = none := by
  unfold tempMatch
  rw [show "Ambient temperature:".data = 'A' :: "mbient temperature:".data from rfl,
    dropLit?_head_ne (by decide)]
  rfl

lemma airflowMatch_dash (cs : List Char) : airflowMatch ('-' :: cs) = none := by
  unfold airflowMatch
  rw [show "Airflow:".data = 'A' :: "irflow:".data from rfl,
    dropLit?_head_ne (by decide)]

lemma isPrefixOf_head_ne {a c : Char} {as cs : List Char} (h : ¬ a = c) :
    List.isPrefixOf (a :: as) (c :: cs) = false := by
  simp [List.isPrefixOf, h]

lemma fanHdr_dash (cs : List Char) : "Fan".data.isPrefixOf ('-' :: cs) = false := by
  rw [show "Fan".data = 'F' :: "an".data from rfl]
  exact isPrefixOf_head_ne (by decide)

lemma powerHdr_dash (cs : List Char) : "Power".data.isPrefixOf ('-' :: cs) = false := by
  rw [show "Power".data = 'P' :: "ower".data from rfl]
  exact isPrefixOf_head_ne (by decide)

lemma sepMatch_dash (cs : List Char) : sepMatch ('-' :: cs) = true := by
  simp [sepMatch]

/-- C1: every entry of the mapping returned by `get_interface_counters`
(including records built from an absent error entry, whose fields default to
zero) has `totalErrors` equal to the sum of its seven named error fields; the
total is recomputed from those constituents, never read from the device
input (the construction reads only the seven constituent fields). -/
theorem totalErrors_recomputed (rates : List (String × RateData))
    (errors : List (String × ErrorData)) (k : String) (pc : PortCounters)
    (h : (k, pc) ∈ get_interface_counters rates errors) :
    pc.totalErrors = pc.inErrors + pc.outErrors + pc.frameTooLongs + pc.frameTooShorts +
      pc.fcsErrors + pc.alignmentErrors + pc.symbolErrors := by
  obtain ⟨p, _, he⟩ := mem_get_interface_counters h
  have hpc : pc = (normalizeEntry errors p).2 := congrArg Prod.snd he
  rw [hpc]
  exact mkPortCounters_totalErrors p.2 _

/-- Witness for C1 at the scenario-A input, whose error mapping is empty. -/
theorem totalErrors_recomputed_witness :
    ("Eth1", pcA) ∈ get_interface_counters ratesA [] ∧
      pcA.totalErrors = pcA.inErrors + pcA.outErrors + pcA.frameTooLongs + pcA.frameTooShorts +
        pcA.fcsErrors + pcA.alignmentErrors + pcA.symbolErrors :=
  ⟨by decide, totalErrors_recomputed ratesA [] "Eth1" pcA (by decide)⟩

/-- C3: the Counter Normalizer's output is keyed by the canonicalized key set
of the rate mapping only; every output entry is the normalization of some
rate entry; and a rate port absent from the error mapping yields a record
whose seven error fields and `totalErrors` are all zero. -/
theorem normalizer_keys_and_zero_defaults (rates : List (String × RateData))
    (errors : List (String × ErrorData)) :
    (∀ k : String, k ∈ (get_interface_counters rates errors).map Prod.fst ↔
        k ∈ rates.map (fun p => canonicalName p.1)) ∧
    (∀ e, e ∈ get_interface_counters rates errors →
        ∃ p, p ∈ rates ∧ e = normalizeEntry errors p) ∧
    (∀ p : String × RateData, List.lookup p.1 errors = none →
      (normalizeEntry errors p).2.inErrors = 0 ∧ (normalizeEntry errors p).2.outErrors = 0 ∧
      (normalizeEntry errors p).2.frameTooLongs = 0 ∧
      (normalizeEntry errors p).2.frameTooShorts = 0 ∧
      (normalizeEntry errors p).2.fcsErrors = 0 ∧
      (normalizeEntry errors p).2.alignmentErrors = 0 ∧
      (normalizeEntry errors p).2.symbolErrors = 0 ∧
      (normalizeEntry errors p).2.totalErrors = 0) := by
  refine ⟨?_, ?_, ?_⟩
  · intro k
    have hkeys := keys_interfaceFold errors rates [] k
    simpa [get_interface_counters] using hkeys
  · intro e he
    exact mem_get_interface_counters he
  · intro p hp
    simp [normalizeEntry, hp, mkPortCounters, defaultErrorData]

/-- Witness for C3 at the scenario-A input: `Ethernet1` is absent from the
empty error mapping and its normalized record is all-zero. -/
theorem normalizer_keys_and_zero_defaults_witness :
    ("Eth1" ∈ (get_interface_counters ratesA []).map Prod.fst) ∧
      (normalizeEntry [] ("Ethernet1", rateA)).2.totalErrors = 0 :=
  ⟨((normalizer_keys_and_zero_defaults ratesA []).1 "Eth1").mpr (by decide),
    ((normalizer_keys_and_zero_defaults ratesA []).2.2 ("Ethernet1", rateA) (by decide)).2.2.2.2.2.2.2⟩

/-- C2: the Port Ordering step sorts by the digit-run integer tuple
(lexicographically on integers, `natListLe`): the output is sorted under
`interfaceLE`, it is a permutation of the filtered input, ports with an
identical digit-tuple keep their original relative order (the per-key
filtered subsequences are unchanged), and the concrete digit-tuples
(1,1), (1,2), (1,10), (2,1) come out in exactly that sequence, with (1,2)
before (1,10). -/
theorem sort_eth_ordering (l : List (String × PortCounters)) :
    List.Sorted interfaceLE (sort_eth_interfaces l) ∧
    (sort_eth_interfaces l).Perm (l.filter ethFilter) ∧
    (∀ ks : List Nat,
      (sort_eth_interfaces l).filter (fun x => interface_sort_key x.1 = ks) =
        (l.filter ethFilter).filter (fun x => interface_sort_key x.1 = ks)) ∧
    sort_eth_interfaces c2input = c2sorted := by
  refine ⟨List.sorted_insertionSort interfaceLE _, List.perm_insertionSort interfaceLE _, ?_, by decide⟩
  intro ks
  set p : String × PortCounters → Bool := fun x => decide (interface_sort_key x.1 = ks) with hp
  set c := (l.filter ethFilter).filter p with hc
  have hmemkey : ∀ x ∈ c, interface_sort_key x.1 = ks := by
    intro x hx
    have hx2 := (List.mem_filter.mp hx).2
    rw [hp] at hx2
    exact of_decide_eq_true hx2
  have hpair : c.Pairwise interfaceLE := by
    refine List.pairwise_of_forall_mem_list ?_
    intro x hx y hy
    unfold interfaceLE
    rw [hmemkey x hx, hmemkey y hy]
    exact natListLe_refl ks
  have hsub : List.Sublist c (l.filter ethFilter) := List.filter_sublist _
  have hstable : List.Sublist c (sort_eth_interfaces l) := by
    unfold sort_eth_interfaces
    exact List.sublist_insertionSort hpair hsub
  have hcfilter : c.filter p = c := by
    refine List.filter_eq_self.mpr ?_
    intro x hx
    rw [hp]
    exact decide_eq_true (hmemkey x hx)
  have hsub2 : List.Sublist c ((sort_eth_interfaces l).filter p) := by
    rw [← hcfilter]
    exact hstable.filter p
  have hperm : (sort_eth_interfaces l).Perm (l.filter ethFilter) :=
    List.perm_insertionSort interfaceLE _
  have hlen : ((sort_eth_interfaces l).filter p).length = c.length := by
    rw [hc]
    exact (hperm.filter p).length_eq
  exact (hsub2.eq_of_length hlen.symm).symm

/-- Counterexample to C4: for the rate input `{"Ethernet": {...}}` the
canonical name `"Eth"` contains no digits yet passes the `Eth` filter, and
the numeric projection does not produce an output excluding the port — it
raises (`none`, the `IndexError` of `re.findall(r'\d+', port)[0]`). -/
theorem digitless_not_excluded :
    ¬ ∃ r : InterfaceSeries,
      prepare_interface_data (sort_eth_interfaces (get_interface_counters ratesDigitless [])) =
        some r := by
  rintro ⟨r, hr⟩
  have hnone : prepare_interface_data
      (sort_eth_interfaces (get_interface_counters ratesDigitless [])) = none := by decide
  rw [hnone] at hr
  exact Option.noConfusion hr

/-- C4 amended: a digitless port is excluded only by the `Eth`-prefix filter
(every port reaching the projection is `Eth`-prefixed); a digitless port
whose canonical name does start with `Eth` is not excluded — it makes the
whole projection raise `IndexError` (modelled as `none`). -/
theorem digitless_raises (s : List (String × PortCounters)) :
    (∀ q : String × PortCounters, q ∈ sort_eth_interfaces s → ethFilter q = true) ∧
    (∀ q : String × PortCounters, q ∈ s → digitRuns q.1.data = [] →
        prepare_interface_data s = none) := by
  constructor
  · intro q hq
    unfold sort_eth_interfaces at hq
    have hmem : q ∈ s.filter ethFilter := (List.mem_insertionSort interfaceLE).mp hq
    exact (List.mem_filter.mp hmem).2
  · intro q hq hd
    have hnone : firstNums (s.map Prod.fst) = none :=
      firstNums_none_of_mem _ q.1 (List.mem_map.mpr ⟨q, hq, rfl⟩) hd
    simp [prepare_interface_data, hnone]

/-- Witness for the amended C4 at a concrete digitless `Eth` port. -/
theorem digitless_raises_witness :
    prepare_interface_data [("Eth", pc0)] = none :=
  (digitless_raises [("Eth", pc0)]).2 ("Eth", pc0) (by decide) (by decide)

/-- C7: whenever `prepare_interface_data` produces a series, all twelve
parallel sequences have length equal to the input's, and the entry at index
`i` of every sequence is the corresponding projection of the input item at
index `i` (so every sequence describes the same port at the same index). -/
theorem series_alignment (s : List (String × PortCounters)) (r : InterfaceSeries)
    (h : prepare_interface_data s = some r) :
    (r.labels.length = s.length ∧ r.port_numbers.length = s.length ∧
     r.in_bps_data.length = s.length ∧ r.out_bps_data.length = s.length ∧
     r.in_errors_data.length = s.length ∧ r.out_errors_data.length = s.length ∧
     r.frame_too_longs_data.length = s.length ∧ r.frame_too_shorts_data.length = s.length ∧
     r.fcs_errors_data.length = s.length ∧ r.alignment_errors_data.length = s.length ∧
     r.symbol_errors_data.length = s.length ∧ r.total_errors_data.length = s.length) ∧
    r.labels = s.map Prod.fst ∧
    (∀ (i : Nat) (h1 : i < s.length) (h2 : i < r.port_numbers.length),
        (digitRuns ((s.get ⟨i, h1⟩).1.data)).head? = some (r.port_numbers.get ⟨i, h2⟩)) ∧
    r.in_bps_data = s.map (fun x => if x.2.inBpsRate ≠ 0 then x.2.inBpsRate / 1000000 else 0) ∧
    r.out_bps_data = s.map (fun x => if x.2.outBpsRate ≠ 0 then x.2.outBpsRate / 1000000 else 0) ∧
    r.in_errors_data = s.map (fun x => x.2.inErrors) ∧
    r.out_errors_data = s.map (fun x => x.2.outErrors) ∧
    r.frame_too_longs_data = s.map (fun x => x.2.frameTooLongs) ∧
    r.frame_too_shorts_data = s.map (fun x => x.2.frameTooShorts) ∧
    r.fcs_errors_data = s.map (fun x => x.2.fcsErrors) ∧
    r.alignment_errors_data = s.map (fun x => x.2.alignmentErrors) ∧
    r.symbol_errors_data = s.map (fun x => x.2.symbolErrors) ∧
    r.total_errors_data = s.map (fun x => x.2.totalErrors) := by
  simp only [prepare_interface_data] at h
  cases hn : firstNums (s.map Prod.fst) with
  | none =>
    rw [hn] at h
    exact absurd h (by simp)
  | some pns =>
    rw [hn] at h
    have hr := Option.some.inj h
    subst hr
    obtain ⟨hlen, hget⟩ := firstNums_spec _ _ hn
    refine ⟨⟨by simp, by simpa using hlen, by simp, by simp, by simp, by simp, by simp, by simp,
      by simp, by simp, by simp, by simp⟩, rfl, ?_, rfl, rfl, rfl, rfl, rfl, rfl, rfl, rfl, rfl, rfl⟩
    intro i h1 h2
    have h1' : i < (s.map Prod.fst).length := by simpa using h1
    have hx := hget i h1' h2
    have hgm : (s.map Prod.fst).get ⟨i, h1'⟩ = (s.get ⟨i, h1⟩).1 := by
      simp
    rw [hgm] at hx
    exact hx

/-- Witness for C7 at the zero-rate series. -/
theorem series_alignment_witness :
    prepare_interface_data [("Eth2", pc0)] = some seriesZ ∧ seriesZ.labels.length = 1 :=
  ⟨by decide, (series_alignment [("Eth2", pc0)] seriesZ (by decide)).1.1⟩

/-- C8: for the rate input `{"Ethernet1": {"inBpsRate": 2000000,
"outBpsRate": 1000000, "description": "uplink"}}` with no matching error
entry, normalization produces the record keyed `"Eth1"` with zero error
fields and zero total, and projection scales the rates to exactly 2 and 1;
for a zero-rate port the scaled rate is present and exactly 0. -/
theorem scenarioA_pipeline :
    get_interface_counters ratesA [] = [("Eth1", pcA)] ∧
    prepare_interface_data (sort_eth_interfaces (get_interface_counters ratesA [])) =
      some seriesA ∧
    prepare_interface_data (sort_eth_interfaces (get_interface_counters ratesZ [])) =
      some seriesZ := by
  refine ⟨by decide, ?_, by decide⟩
  rw [show sort_eth_interfaces (get_interface_counters ratesA []) = [("Eth1", pcA)] from by decide]
  have h1 : firstNums ([("Eth1", pcA)].map Prod.fst) = some [1] := by decide
  simp only [prepare_interface_data, h1]
  norm_num [seriesA, pcA]

/-- C9: a raised transport/malformed-response error is never caught inside
the pipeline — whichever fetch fails, `generate_html_report` evaluates to
exactly that error — and at the outer boundary `main` reports the message
(the failure outcome, not the success outcome) and writes no report file. -/
theorem error_propagation (α : Type) (sw : Except String α)
    (ratesResp : Except String (List (String × RateData)))
    (errsResp : Except String (List (String × ErrorData)))
    (envResp : Except String (Option (List String))) (msg : String) :
    (generate_html_report (Except.error msg : Except String α) ratesResp errsResp envResp =
        Except.error msg) ∧
    (∀ a : α, generate_html_report (Except.ok a) (Except.error msg) errsResp envResp =
        Except.error msg) ∧
    (∀ (a : α) (r : List (String × RateData)),
        generate_html_report (Except.ok a) (Except.ok r) (Except.error msg) envResp =
          Except.error msg) ∧
    (∀ (a : α) (r : List (String × RateData)) (e : List (String × ErrorData)),
        generate_html_report (Except.ok a) (Except.ok r) (Except.ok e)
          (Except.error msg : Except String (Option (List String))) = Except.error msg) ∧
    (generate_html_report sw ratesResp errsResp envResp = Except.error msg →
      mainRun sw ratesResp errsResp envResp =
        ⟨"Error generating report: " ++ msg, none⟩) := by
  refine ⟨rfl, fun a => rfl, fun a r => rfl, fun a r e => rfl, ?_⟩
  · intro h
    unfold mainRun
    rw [h]

/-- Witness for C9 at a concrete failing transport call. -/
theorem error_propagation_witness :
    mainRun (Except.error "Connection timed out while trying to reach the switch." :
        Except String Unit) (Except.ok []) (Except.ok []) (Except.ok none) =
      ⟨"Error generating report: " ++
          "Connection timed out while trying to reach the switch.", none⟩ :=
  (error_propagation Unit _ _ _ _
    "Connection timed out while trying to reach the switch.").2.2.2.2 rfl

/-- C10: any stripped non-empty line whose first character is a dash is
skipped entirely by the parser — the separator pattern `[-\s]+` only
constrains a leading run — even though the line may be a well-formed fan
row, as `fanRowMatch` accepts the concrete dash-prefixed row, so the skipped
set is strictly larger than the lines composed only of dashes/whitespace. -/
theorem dash_line_skipped :
    (∀ (st : EnvState) (raw : List Char) (cs : List Char),
        pyStrip raw = '-' :: cs → envStep st raw = st) ∧
    (fanRowMatch dashFanLine.data).isSome = true := by
  constructor
  · intro st raw cs h
    unfold envStep
    rw [h]
    simp [coolingMatch_dash, tempMatch_dash, airflowMatch_dash, fanHdr_dash, powerHdr_dash,
      sepMatch_dash]
  · decide

/-- Witness for C10 at the concrete dash-prefixed well-formed fan row. -/
theorem dash_line_skipped_witness :
    envStep initEnvState dashFanLine.data = initEnvState :=
  dash_line_skipped.1 initEnvState dashFanLine.data "Fan1 Ok 50% 50%".data (by decide)

/-- C5: the Text Table Parser is total by construction (`get_environment_info`
and `envStep` are total functions); an absent or empty `messages` field gives
the all-sentinel snapshot without parsing — hence re-running on such a blob
gives the identical result — and every line either leaves the parser state
unchanged (it is skipped) or is one of the recognized patterns. -/
theorem parser_total_and_sentinel :
    get_environment_info none = sentinelSnapshot ∧
    get_environment_info (some []) = sentinelSnapshot ∧
    (∀ (st : EnvState) (raw : List Char), envStep st raw = st ∨ recognizedEnvLine st raw) := by
  refine ⟨rfl, rfl, ?_⟩
  intro st raw
  by_cases hE : (pyStrip raw).isEmpty = true
  · left
    unfold envStep
    simp [hE]
  · have hE' : (pyStrip raw).isEmpty = false := by
      cases hb : (pyStrip raw).isEmpty
      · rfl
      · exact absurd hb hE
    cases h1 : coolingMatch (pyStrip raw) with
    | some g =>
      right
      exact ⟨hE', Or.inl (by simp [h1])⟩
    | none =>
      cases h2 : tempMatch (pyStrip raw) with
      | some g =>
        right
        exact ⟨hE', Or.inr (Or.inl (by simp [h2]))⟩
      | none =>
        cases h3 : airflowMatch (pyStrip raw) with
        | some g =>
          right
          exact ⟨hE', Or.inr (Or.inr (Or.inl (by simp [h3])))⟩
        | none =>
          by_cases h4 : ("Fan".data.isPrefixOf (pyStrip raw) &&
              containsSub "Status".data (pyStrip raw)) = true
          · right
            exact ⟨hE', Or.inr (Or.inr (Or.inr (Or.inl h4)))⟩
          · by_cases h5 : ("Power".data.isPrefixOf (pyStrip raw) &&
                containsSub "Supply".data (pyStrip raw)) = true
            · right
              exact ⟨hE', Or.inr (Or.inr (Or.inr (Or.inr (Or.inl h5))))⟩
            · by_cases h6 : sepMatch (pyStrip raw) = true
              · left
                unfold envStep
                simp [hE', h1, h2, h3, h4, h5, h6]
              · by_cases h7 : st.parsingFan = true
                · cases h8 : fanRowMatch (pyStrip raw) with
                  | some g =>
                    right
                    exact ⟨hE', Or.inr (Or.inr (Or.inr (Or.inr (Or.inr (Or.inl
                      ⟨h7, by simp [h8]⟩)))))⟩
                  | none =>
                    left
                    unfold envStep
                    simp [hE', h1, h2, h3, h4, h5, h6, h7, h8]
                · by_cases h9 : st.parsingPower = true
                  · cases h10 : powerRowMatch (pyStrip raw) with
                    | some g =>
                      right
                      exact ⟨hE', Or.inr (Or.inr (Or.inr (Or.inr (Or.inr (Or.inr
                        ⟨h9, by simp [h10]⟩)))))⟩
                    | none =>
                      left
                      unfold envStep
                      simp [hE', h1, h2, h3, h4, h5, h6, h7, h9, h10]
                  · left
                    unfold envStep
                    simp [hE', h1, h2, h3, h4, h5, h6, h7, h9]

lemma env_output_shape (m : String) (rest : List String) :
    get_environment_info (some (m :: rest)) =
      { coolingStatus := ((pySplitlines m.data).foldl envStep initEnvState).cooling
        ambientTemperature := ((pySplitlines m.data).foldl envStep initEnvState).temp
        fanStatus := if ((pySplitlines m.data).foldl envStep initEnvState).fans.isEmpty
          then ["N/A"] else ((pySplitlines m.data).foldl envStep initEnvState).fans
        powerSupplyStatus := if ((pySplitlines m.data).foldl envStep initEnvState).power.isEmpty
          then ["N/A"] else ((pySplitlines m.data).foldl envStep initEnvState).power } := rfl

lemma ite_sentinel_ne_nil (l : List String) : (if l.isEmpty then ["N/A"] else l) ≠ [] := by
  cases l with
  | nil => simp
  | cons a as => simp

/-- C6: the fan and power sequences of every snapshot are never empty; when a
sub-table parse yields zero rows the sequence is exactly the one-element
sentinel; and the scenario-B text gives cooling "OK" with both sequences
equal to the single-element sentinel sequence. -/
theorem sentinel_subtables :
    (∀ m : Option (List String), (get_environment_info m).fanStatus ≠ [] ∧
        (get_environment_info m).powerSupplyStatus ≠ []) ∧
    (∀ (msg : String) (rest : List String),
        (((pySplitlines msg.data).foldl envStep initEnvState).fans = [] →
          (get_environment_info (some (msg :: rest))).fanStatus = ["N/A"]) ∧
        (((pySplitlines msg.data).foldl envStep initEnvState).power = [] →
          (get_environment_info (some (msg :: rest))).powerSupplyStatus = ["N/A"])) ∧
    get_environment_info (some [coolingLine]) = ⟨"OK", "N/A", ["N/A"], ["N/A"]⟩ := by
  refine ⟨?_, ?_, by decide⟩
  · intro m
    rcases m with _ | ls
    · exact ⟨by decide, by decide⟩
    · cases ls with
      | nil => exact ⟨by decide, by decide⟩
      | cons msg rest =>
        rw [env_output_shape]
        exact ⟨ite_sentinel_ne_nil _, ite_sentinel_ne_nil _⟩
  · intro msg rest
    constructor
    · intro h
      rw [env_output_shape]
      simp [h]
    · intro h
      rw [env_output_shape]
      simp [h]

/-- Witness for C6 at the scenario-B text, whose fan table is absent. -/
theorem sentinel_subtables_witness :
    (get_environment_info (some [coolingLine])).fanStatus = ["N/A"] :=
  (sentinel_subtables.2.1 coolingLine []).1 (by decide)
